import Mathlib

/-!
Verification of the core logic of the Fitness-app repository
(src/src/App.tsx), shallowly embedded in Lean 4.

Modelling conventions:
* JavaScript numbers are modelled by `ℚ` (the app manipulates only finite
  decimal values produced by `Number(...)` and arithmetic on them; `NaN`
  does not arise in the modelled fragments because every numeric read is
  guarded by `Number(x) || 0` or an explicit falsiness check).
* A field that may hold the empty string `''` or a number is modelled by
  `Option ℚ` with `none` standing for `''`.
* `Math.round x` is `⌊x + 1/2⌋` (JS rounds half-way cases towards +∞).
* JS objects become structures; `{...a, ...b}` spreads become patch
  structures with `Option` fields merged with `Option.getD`.
-/

namespace Fitness

/-- JS `Math.round`: round half up (towards +∞). -/
def jsRound (q : ℚ) : ℤ := ⌊q + 1/2⌋

/-- `x || 0` applied to a field holding `''` (`none`) or a number: `''`
and `0` are falsy and give `0`, any other number is returned unchanged.
Since the falsy number case is exactly `0`, this is `Option.getD 0`. -/
def numOr0 (o : Option ℚ) : ℚ := o.getD 0

/-- The record returned by `computeMacros` (src/src/App.tsx:124-129). -/
structure MacroTargets where
  calories : ℤ
  protein : ℤ
  fat : ℤ
  carbs : ℤ
deriving DecidableEq, Repr

/-- `computeMacros` (src/src/App.tsx:116-130); the spec calls it
`computeMacroTargets`.  `!goalWeight || !calories` is falsiness of a
number, i.e. equality with 0 in the ℚ model. -/
def computeMacros (goalWeight calories : ℚ) : Option MacroTargets :=
  if goalWeight = 0 ∨ calories = 0 then none
  else
    let proteinGrams := goalWeight
    let proteinCalories := proteinGrams * 4
    let fatCalories := calories * 0.25
    let fatGrams := fatCalories / 9
    let carbCalories := calories - (proteinCalories + fatCalories)
    let carbGrams := carbCalories / 4
    some { calories := jsRound calories
         , protein := jsRound proteinGrams
         , fat := jsRound fatGrams
         , carbs := max 0 (jsRound carbGrams) }

/-! ## Data model (src/src/App.tsx:34-56, 323-333) -/

/-- An exercise entry (src/src/App.tsx:324-333): the four select strings
and four numeric fields that stay `''` (`none`) while unused. -/
structure Exercise where
  category : String
  type : String
  group : String
  name : String
  weight : Option ℚ
  sets : Option ℚ
  reps : Option ℚ
  duration : Option ℚ
deriving DecidableEq, Repr

/-- A day record (src/src/App.tsx:42-49). -/
structure Day where
  date : String
  calories : Option ℚ
  protein : Option ℚ
  carbs : Option ℚ
  fat : Option ℚ
  exercises : List Exercise
deriving DecidableEq, Repr

/-- The targets record (src/src/App.tsx:34-40). -/
structure Targets where
  calories : ℚ
  protein : ℚ
  carbs : ℚ
  fat : ℚ
  goalWeight : ℚ
deriving DecidableEq, Repr

/-- Top-level application state (src/src/App.tsx:51-54). -/
structure AppState where
  targets : Targets
  days : List Day
deriving DecidableEq, Repr

/-- `defaultTargets` (src/src/App.tsx:34-40). -/
def defaultTargets : Targets :=
  { calories := 1800, protein := 130, carbs := 160, fat := 60, goalWeight := 150 }

/-- `emptyDay(dateStr)` (src/src/App.tsx:42-49): `dateStr || todayISO()`.
`todayISO()` reads the clock, so the current date is threaded in as the
explicit argument `today`. -/
def emptyDay (dateStr today : String) : Day :=
  { date := if dateStr = "" then today else dateStr
  , calories := none, protein := none, carbs := none, fat := none
  , exercises := [] }

/-- `defaultState` (src/src/App.tsx:51-54). -/
def defaultState (today : String) : AppState :=
  { targets := defaultTargets, days := [emptyDay today today] }

/-! ## Exercise catalog (src/src/App.tsx:59-113)

The nested JS object literal is embedded as nested association lists so
that `Object.keys` insertion order is preserved. -/

def EXERCISE_TREE : List (String × List (String × List (String × List String))) :=
  [ ("Cardio",
      [ ("LISS", [("-", ["Treadmill", "Stair Master", "Elliptical"])])
      , ("HIIT", [("-", ["Treadmill", "Stair Master", "Elliptical"])]) ])
  , ("Strength",
      [ ("Pull",
          [ ("Back",
              [ "Seated low row"
              , "Lat pulldown (wide grip)"
              , "Lat pulldown (short grip)"
              , "Bent over row" ])
          , ("Bicep", ["EZ bar curl", "Dumbbell hammer curl", "Cable rope curl"]) ])
      , ("Push",
          [ ("Chest", ["Flat bench press", "Incline bench press", "Cable chest fly"])
          , ("Shoulders",
              [ "Barbell or dumbbell shoulder press"
              , "Lateral raise"
              , "Front raise / Side raise / Around-the-world (alternate weekly)" ])
          , ("Triceps",
              [ "Cable triceps pushdown"
              , "Bar triceps pushdown"
              , "Overhead cable triceps extension" ]) ])
      , ("Legs",
          [ ("Legs + Glutes + Calves",
              [ "Dumbbell squat (shoulder hold)"
              , "Sumo squat (front hold)"
              , "Romanian deadlift"
              , "Curtsy lunge / Side lunge (alternate weekly)"
              , "Standing calf raise"
              , "Seated calf raise" ]) ]) ]) ]

/-- `getTypes` (src/src/App.tsx:104-105); the spec calls it `typesFor`.
`cat && EXERCISE_TREE[cat] ? Object.keys(...) : []`. -/
def getTypes (cat : String) : List String :=
  if cat = "" then []
  else
    match EXERCISE_TREE.lookup cat with
    | some m => m.map Prod.fst
    | none => []

/-- `getGroups` (src/src/App.tsx:106-109); the spec calls it `groupsFor`. -/
def getGroups (cat ty : String) : List String :=
  if cat = "" ∨ ty = "" then []
  else
    match EXERCISE_TREE.lookup cat with
    | some m =>
      match m.lookup ty with
      | some g => g.map Prod.fst
      | none => []
    | none => []

/-- `getExercises` (src/src/App.tsx:110-113); the spec calls it
`exercisesFor`. -/
def getExercises (cat ty gr : String) : List String :=
  if cat = "" ∨ ty = "" ∨ gr = "" then []
  else
    match EXERCISE_TREE.lookup cat with
    | some m =>
      match m.lookup ty with
      | some g =>
        match g.lookup gr with
        | some names => names
        | none => []
      | none => []
    | none => []

/-! ## State operations (src/src/App.tsx:300-384)

`days[i] = f(days[i])` on a JS array with `i` in range is modification at
index `i`; theorems about these operations carry the in-range hypotheses
under which the component invokes them. -/

/-- Replace the element at index `i` by its image under `f`; the list is
unchanged when `i` is out of range. -/
def listModify (f : α → α) : ℕ → List α → List α
  | _, [] => []
  | 0, a :: as => f a :: as
  | n + 1, a :: as => a :: listModify f n as

/-- A `{...}` object spread onto a `Day` (src/src/App.tsx:300-306):
fields present in the patch override, absent fields are kept. -/
structure DayPatch where
  date : Option String := none
  calories : Option ℚ := none
  protein : Option ℚ := none
  carbs : Option ℚ := none
  fat : Option ℚ := none
  exercises : Option (List Exercise) := none

/-- `{...d, ...p}` for a day record. -/
def applyDayPatch (d : Day) (p : DayPatch) : Day :=
  { date := p.date.getD d.date
  , calories := match p.calories with | some v => some v | none => d.calories
  , protein := match p.protein with | some v => some v | none => d.protein
  , carbs := match p.carbs with | some v => some v | none => d.carbs
  , fat := match p.fat with | some v => some v | none => d.fat
  , exercises := p.exercises.getD d.exercises }

/-- `setActiveDay` (src/src/App.tsx:300-306). -/
def setActiveDay (activeIdx : ℕ) (p : DayPatch) (s : AppState) : AppState :=
  { s with days := listModify (fun d => applyDayPatch d p) activeIdx s.days }

/-- `addNewDay` (src/src/App.tsx:308-312): prepend a fresh empty day for
today. -/
def addNewDay (today : String) (s : AppState) : AppState :=
  { s with days := emptyDay today today :: s.days }

/-- `deleteDay` (src/src/App.tsx:314-321): filter out index `idx`; if the
result is empty substitute a single fresh empty day for today. -/
def deleteDay (today : String) (idx : ℕ) (s : AppState) : AppState :=
  let days := s.days.eraseIdx idx
  { s with days := if days.isEmpty then [emptyDay today today] else days }

/-- The blank entry appended by `addExercise` (src/src/App.tsx:324-333). -/
def blankExercise : Exercise :=
  { category := "", type := "", group := "", name := ""
  , weight := none, sets := none, reps := none, duration := none }

/-- `addExercise` (src/src/App.tsx:323-335): appends a blank entry to the
active day via `setActiveDay`; `activeDay` falls back to
`emptyDay(todayISO())` when the index is out of range
(src/src/App.tsx:298). -/
def addExercise (today : String) (activeIdx : ℕ) (s : AppState) : AppState :=
  let activeDay := (s.days.get? activeIdx).getD (emptyDay today today)
  setActiveDay activeIdx { exercises := some (activeDay.exercises ++ [blankExercise]) } s

/-- A `{...}` object spread onto an `Exercise` (src/src/App.tsx:337-347). -/
structure ExercisePatch where
  category : Option String := none
  type : Option String := none
  group : Option String := none
  name : Option String := none
  weight : Option (Option ℚ) := none
  sets : Option (Option ℚ) := none
  reps : Option (Option ℚ) := none
  duration : Option (Option ℚ) := none

/-- `{...e, ...p}` for an exercise entry; a present patch field may set a
numeric field back to `''` (`some none`), as the Cardio category reset
does. -/
def applyExercisePatch (e : Exercise) (p : ExercisePatch) : Exercise :=
  { category := p.category.getD e.category
  , type := p.type.getD e.type
  , group := p.group.getD e.group
  , name := p.name.getD e.name
  , weight := p.weight.getD e.weight
  , sets := p.sets.getD e.sets
  , reps := p.reps.getD e.reps
  , duration := p.duration.getD e.duration }

/-- `updateExercise` (src/src/App.tsx:337-347). -/
def updateExercise (activeIdx exIdx : ℕ) (p : ExercisePatch) (s : AppState) : AppState :=
  { s with
    days := listModify
      (fun d => { d with
        exercises := listModify (fun e => applyExercisePatch e p) exIdx d.exercises })
      activeIdx s.days }

/-- `removeExercise` (src/src/App.tsx:350-358). -/
def removeExercise (activeIdx exIdx : ℕ) (s : AppState) : AppState :=
  { s with
    days := listModify
      (fun d => { d with exercises := d.exercises.eraseIdx exIdx })
      activeIdx s.days }

/-- One inserted entry of the "All the above" expansion
(src/src/App.tsx:369-378). -/
def allEntry (cat ty gr n : String) : Exercise :=
  { category := cat, type := ty, group := gr, name := n
  , weight := none, sets := none, reps := none, duration := none }

/-- `exs.splice(exIdx, 1, ...names.map(...))` (src/src/App.tsx:366-379)
for `exIdx ≤ exs.length`. -/
def spliceAll (exIdx : ℕ) (cat ty gr : String) (names : List String)
    (exs : List Exercise) : List Exercise :=
  exs.take exIdx ++ names.map (allEntry cat ty gr) ++ exs.drop (exIdx + 1)

/-- `replaceExerciseWithAll` (src/src/App.tsx:360-384). -/
def replaceExerciseWithAll (activeIdx exIdx : ℕ) (cat ty gr : String)
    (names : List String) (s : AppState) : AppState :=
  { s with
    days := listModify
      (fun d => { d with exercises := spliceAll exIdx cat ty gr names d.exercises })
      activeIdx s.days }

/-! ## Macro/calorie check (src/src/App.tsx:32, 418-423) -/

/-- Source name `macroCalories` (src/src/App.tsx:32); the spec calls it
`caloriesFromMacros`: `p * 4 + c * 4 + f * 9`. -/
def caloriesFromMacros (p c f : ℚ) : ℚ := p * 4 + c * 4 + f * 9

/-- `calDelta` for a day (src/src/App.tsx:418-423): the entered calorie
figure minus the calories implied by the entered macros, each field read
through `Number(x) || 0`. -/
def calDelta (d : Day) : ℚ :=
  numOr0 d.calories -
    caloriesFromMacros (numOr0 d.protein) (numOr0 d.carbs) (numOr0 d.fat)

/-- The UI match flag: `calDelta === 0` shows "Perfect match"
(src/src/App.tsx:700). -/
def calMatch (d : Day) : Bool := calDelta d == 0

/-! ## JSON import (src/src/App.tsx:232-252)

`JSON.parse` and the file read are I/O; their outcome enters the model as
an `Except`: `Except.error` is a thrown parse error, `Except.ok` carries
the parsed document, whose `targets` and `days` members may be absent. -/

/-- Parsed `targets` member: a partial record merged over
`defaultTargets` field by field. -/
structure TargetsPatch where
  calories : Option ℚ := none
  protein : Option ℚ := none
  carbs : Option ℚ := none
  fat : Option ℚ := none
  goalWeight : Option ℚ := none
deriving DecidableEq, Repr

/-- `{...defaultTargets, ...(parsed.targets || {})}`
(src/src/App.tsx:241). -/
def mergeTargets (p : Option TargetsPatch) : Targets :=
  match p with
  | none => defaultTargets
  | some t =>
    { calories := t.calories.getD defaultTargets.calories
    , protein := t.protein.getD defaultTargets.protein
    , carbs := t.carbs.getD defaultTargets.carbs
    , fat := t.fat.getD defaultTargets.fat
    , goalWeight := t.goalWeight.getD defaultTargets.goalWeight }

/-- A parsed import document: both members optional. -/
structure ImportDoc where
  targets : Option TargetsPatch
  days : Option (List Day)
deriving DecidableEq, Repr

/-- `importJSON` (src/src/App.tsx:232-252), state transition only: given
the parse outcome and the previous state, returns the next state and
whether the error alert was shown.  `parsed?.days?.length` truthy means a
present, non-empty `days`; the alert fires only in the `catch` branch. -/
def importJSON (parsed : Except String ImportDoc) (prev : AppState) :
    AppState × Bool :=
  match parsed with
  | Except.error _ => (prev, true)
  | Except.ok doc =>
    match doc.days with
    | some ds =>
      if ds.isEmpty then (prev, false)
      else ({ targets := mergeTargets doc.targets, days := ds }, false)
    | none => (prev, false)

/-! ## CSV export (src/src/App.tsx:188-230)

JS number-to-string conversion is an external primitive; the export is
parameterised by it (`numStr`), and theorems assume only `numStr 0 = "0"`. -/

/-- The header cells (src/src/App.tsx:189-196). -/
def csvHeaders : List String :=
  ["date", "calories", "protein", "carbs", "fat", "exercises(c/t/g/name/wt/sets/reps/dur)"]

/-- One packed exercise entry (src/src/App.tsx:199-207):
`category/type/group/name/weight/sets/reps/duration`, strings through
`x || ''` (identity on strings), numbers through `x || 0`. -/
def packExercise (numStr : ℚ → String) (e : Exercise) : String :=
  e.category ++ "/" ++ e.type ++ "/" ++ e.group ++ "/" ++ e.name ++ "/" ++
    numStr (numOr0 e.weight) ++ "/" ++ numStr (numOr0 e.sets) ++ "/" ++
    numStr (numOr0 e.reps) ++ "/" ++ numStr (numOr0 e.duration)

/-- One row's unquoted cells (src/src/App.tsx:198-217): numeric fields
through `x || 0`, exercises joined by a pipe separator. -/
def dayFields (numStr : ℚ → String) (d : Day) : List String :=
  [ d.date
  , numStr (numOr0 d.calories)
  , numStr (numOr0 d.protein)
  , numStr (numOr0 d.carbs)
  , numStr (numOr0 d.fat)
  , String.intercalate " | " (d.exercises.map (packExercise numStr)) ]

/-- CSV quoting (src/src/App.tsx:219): wrap in double quotes, doubling
internal double quotes. -/
def csvQuote (s : String) : String :=
  "\"" ++ s.replace "\"" "\"\"" ++ "\""

/-- `exportCSV` (src/src/App.tsx:188-230): header line, then one quoted,
comma-joined row per day in list order. -/
def exportCSV (numStr : ℚ → String) (s : AppState) : String :=
  String.intercalate "," csvHeaders ++ "\n" ++
    String.intercalate "\n"
      (s.days.map (fun d => String.intercalate "," ((dayFields numStr d).map csvQuote)))

/-- Demonstration state used by concrete witnesses: two recorded days, the
first holding one blank exercise entry. -/
def demoDay : Day :=
  { date := "2026-01-01", calories := some 1800, protein := some 150
  , carbs := some 188, fat := some 50, exercises := [blankExercise] }

def demoState : AppState :=
  { targets := defaultTargets, days := [demoDay, emptyDay "2026-01-02" "2026-01-02"] }

/-! ## C9: exercise edits touch only the active day's exercise list -/

/-- Everything of a day record except its exercise list. -/
def dayShell (d : Day) : String × Option ℚ × Option ℚ × Option ℚ × Option ℚ :=
  (d.date, d.calories, d.protein, d.carbs, d.fat)

/-- `s'` differs from `s` at most in the exercise list of the day at
`aIdx`: same targets, same day count, identical days elsewhere, and the
day at `aIdx` keeps its date and the four macro fields. -/
def framePreserved (s s' : AppState) (aIdx : ℕ) : Prop :=
  s'.targets = s.targets ∧
  s'.days.length = s.days.length ∧
  (∀ j, j ≠ aIdx → s'.days[j]? = s.days[j]?) ∧
  (s'.days[aIdx]?).map dayShell = (s.days[aIdx]?).map dayShell

/-! ## Helper lemmas (shared across claims) -/

theorem listModify_length (f : α → α) (i : ℕ) (l : List α) :
    (listModify f i l).length = l.length := by
  induction l generalizing i with
  | nil => cases i <;> rfl
  | cons a as ih => cases i <;> simp [listModify, ih]

theorem listModify_getElem?_ne (f : α → α) (l : List α) {i j : ℕ} (h : j ≠ i) :
    (listModify f i l)[j]? = l[j]? := by
  induction l generalizing i j with
  | nil => cases i <;> rfl
  | cons a as ih =>
    cases i with
    | zero =>
      cases j with
      | zero => exact absurd rfl h
      | succ j => simp [listModify]
    | succ i =>
      cases j with
      | zero => simp [listModify]
      | succ j => simpa [listModify] using ih (fun hc => h (by omega))

theorem listModify_getElem?_eq (f : α → α) (l : List α) (i : ℕ) :
    (listModify f i l)[i]? = Option.map f l[i]? := by
  induction l generalizing i with
  | nil => cases i <;> rfl
  | cons a as ih => cases i <;> simp [listModify, ih]

theorem listModify_ne_nil (f : α → α) (i : ℕ) {l : List α} (h : l ≠ []) :
    listModify f i l ≠ [] := by
  cases l with
  | nil => exact absurd rfl h
  | cons a as => cases i <;> simp [listModify]


theorem frame_listModify (s : AppState) (aIdx : ℕ) (f : Day → Day)
    (hf : ∀ d, dayShell (f d) = dayShell d) :
    framePreserved s { s with days := listModify f aIdx s.days } aIdx := by
  refine ⟨rfl, listModify_length f aIdx s.days,
    fun j hj => listModify_getElem?_ne f s.days hj, ?_⟩
  show ((listModify f aIdx s.days)[aIdx]?).map dayShell = _
  rw [listModify_getElem?_eq]
  cases s.days[aIdx]? with
  | none => rfl
  | some d => simpa using hf d

theorem string_slash_zeros (s : String) :
    s ++ "/" ++ "0" ++ "/" ++ "0" ++ "/" ++ "0" ++ "/" ++ "0" = s ++ "/0/0/0/0" := by
  simp only [String.append_assoc]
  rfl

theorem computeMacros_eq_some (gw cal : ℚ) (h1 : gw ≠ 0) (h2 : cal ≠ 0) :
    computeMacros gw cal =
      some { calories := jsRound cal
           , protein := jsRound gw
           , fat := jsRound (0.25 * cal / 9)
           , carbs := max 0 (jsRound ((cal - 4 * gw - 0.25 * cal) / 4)) } := by
  simp only [computeMacros, not_or, if_neg (not_or.mpr ⟨h1, h2⟩)]
  refine congrArg some ?_
  have hfat : cal * 0.25 / 9 = 0.25 * cal / 9 := by ring
  have hcarb : (cal - (gw * 4 + cal * 0.25)) / 4 = (cal - 4 * gw - 0.25 * cal) / 4 := by
    ring
  rw [hfat, hcarb]

theorem computeMacros_eq_none (gw cal : ℚ) (h : gw = 0 ∨ cal = 0) :
    computeMacros gw cal = none := by
  simp only [computeMacros, if_pos h]

/-! ## Claim theorems -/

/-- C1: for nonzero inputs, `computeMacros` returns exactly the record
given by the claim's formulas — every derived quantity computed from the
unrounded values, only the output fields rounded — and in particular
`computeMacros 150 1800 = ⟨1800, 150, 50, 188⟩`. -/
theorem computeMacros_formula (gw cal : ℚ) (h1 : gw ≠ 0) (h2 : cal ≠ 0) :
    computeMacros gw cal =
      some { calories := jsRound cal
           , protein := jsRound gw
           , fat := jsRound (0.25 * cal / 9)
           , carbs := max 0 (jsRound ((cal - 4 * gw - 0.25 * cal) / 4)) } ∧
    computeMacros 150 1800 = some ⟨1800, 150, 50, 188⟩ :=
  ⟨computeMacros_eq_some gw cal h1 h2, by norm_num [computeMacros, jsRound]⟩

/-- C1 witness: the formula instantiated at goalWeight 120, calories 1600
yields the record the formulas predict. -/
theorem computeMacros_formula_witness :
    computeMacros 120 1600 =
      some { calories := jsRound 1600
           , protein := jsRound 120
           , fat := jsRound (0.25 * 1600 / 9)
           , carbs := max 0 (jsRound ((1600 - 4 * 120 - 0.25 * (1600 : ℚ)) / 4)) } :=
  (computeMacros_formula 120 1600 (by norm_num) (by norm_num)).1

/-- C2: when either input is zero (the falsy number), `computeMacros`
returns `none` — no partial result. -/
theorem computeMacros_zero (gw cal : ℚ) (h : gw = 0 ∨ cal = 0) :
    computeMacros gw cal = none :=
  computeMacros_eq_none gw cal h

/-- C2 witness: `computeMacros 0 1600 = none`. -/
theorem computeMacros_zero_witness : computeMacros 0 1600 = none :=
  computeMacros_zero 0 1600 (Or.inl rfl)

/-- C3 counterexample: the claim says the carb calories of a produced
record are derived from the *rounded* fat grams, i.e. that
`carbs = max 0 (round ((calories - protein*4 - 9*fatRounded)/4))`.
At goalWeight 120, calories 1600 the code produces fat = 44 and
carbs = 180, but the rounded-fat derivation gives
`round ((1600 - 480 - 396)/4) = round 181 = 181 ≠ 180`: the code derives
carb calories from the unrounded fat calories `0.25 * calories`. -/
theorem computeMacros_roundedFat_cex :
    computeMacros 120 1600 = some ⟨1600, 120, 44, 180⟩ ∧
    ¬ ((180 : ℤ) = max 0 (jsRound (((1600 : ℚ) - 120 * 4 - 9 * 44) / 4))) := by
  constructor
  · norm_num [computeMacros, jsRound]
  · norm_num [jsRound]

/-- C3 (amended): every record produced by `computeMacros` satisfies
protein = round goalWeight, fat = round (0.25·calories/9), and
carbs = max 0 (round ((calories − 4·goalWeight − 0.25·calories)/4)) —
carb calories derived from the *unrounded* fat calories — with
carbs ≥ 0 always. -/
theorem computeMacros_invariant (gw cal : ℚ) (m : MacroTargets)
    (h : computeMacros gw cal = some m) :
    m.protein = jsRound gw ∧
    m.fat = jsRound (0.25 * cal / 9) ∧
    m.carbs = max 0 (jsRound ((cal - 4 * gw - 0.25 * cal) / 4)) ∧
    0 ≤ m.carbs := by
  by_cases hz : gw = 0 ∨ cal = 0
  · rw [computeMacros_eq_none gw cal hz] at h
    exact absurd h (by simp)
  · push_neg at hz
    have := computeMacros_eq_some gw cal hz.1 hz.2
    rw [this] at h
    obtain rfl : ({ calories := jsRound cal
                  , protein := jsRound gw
                  , fat := jsRound (0.25 * cal / 9)
                  , carbs := max 0 (jsRound ((cal - 4 * gw - 0.25 * cal) / 4)) }
                    : MacroTargets) = m := Option.some.injEq .. ▸ h
    exact ⟨rfl, rfl, rfl, le_max_left 0 _⟩

/-- C3 witness: the amended invariant instantiated at the record produced
by `computeMacros 120 1600`. -/
theorem computeMacros_invariant_witness :
    (180 : ℤ) = max 0 (jsRound (((1600 : ℚ) - 4 * 120 - 0.25 * 1600) / 4)) ∧
    (0 : ℤ) ≤ 180 := by
  have h : computeMacros 120 1600 = some ⟨1600, 120, 44, 180⟩ := by
    norm_num [computeMacros, jsRound]
  have := computeMacros_invariant 120 1600 ⟨1600, 120, 44, 180⟩ h
  exact ⟨this.2.2.1, this.2.2.2⟩

/-! ## C4: "expand to all" splices in place -/

/-- C4: giving the name selector the "select all" sentinel replaces the
single entry at `i` of the active day's exercise list by one entry per
name — each carrying the chosen category/type/group with all four numeric
fields empty — leaving entries before `i` in place and shifting entries
after `i` by `names.length - 1`. -/
theorem replaceAll_splice (s : AppState) (aIdx i : ℕ) (cat ty gr : String)
    (names : List String) (old : Day)
    (hd : s.days[aIdx]? = some old) (hi : i < old.exercises.length) :
    ((replaceExerciseWithAll aIdx i cat ty gr names s).days[aIdx]?).map Day.exercises
      = some (spliceAll i cat ty gr names old.exercises) ∧
    (spliceAll i cat ty gr names old.exercises).length + 1
      = old.exercises.length + names.length ∧
    (∀ j, j < i →
      (spliceAll i cat ty gr names old.exercises)[j]? = old.exercises[j]?) ∧
    (∀ k, k < names.length →
      (spliceAll i cat ty gr names old.exercises)[i + k]?
        = (names[k]?).map (allEntry cat ty gr)) ∧
    (∀ k, (spliceAll i cat ty gr names old.exercises)[i + names.length + k]?
        = old.exercises[i + 1 + k]?) := by
  have hile : i ≤ old.exercises.length := Nat.le_of_lt hi
  have htake : (old.exercises.take i).length = i := by
    simp [List.length_take, Nat.min_eq_left hile]
  have hleft : (old.exercises.take i ++ names.map (allEntry cat ty gr)).length
      = i + names.length := by
    simp [List.length_append, htake]
  refine ⟨?_, ?_, ?_, ?_, ?_⟩
  · show ((listModify
        (fun d => { d with exercises := spliceAll i cat ty gr names d.exercises })
        aIdx s.days)[aIdx]?).map Day.exercises = _
    rw [listModify_getElem?_eq, hd]
    rfl
  · simp only [spliceAll, List.length_append, htake, List.length_map,
      List.length_drop]
    omega
  · intro j hj
    show ((old.exercises.take i ++ names.map (allEntry cat ty gr))
        ++ old.exercises.drop (i + 1))[j]? = _
    rw [List.getElem?_append_left (by rw [hleft]; omega)]
    rw [List.getElem?_append_left (by rw [htake]; exact hj)]
    exact List.getElem?_take_of_lt hj
  · intro k hk
    show ((old.exercises.take i ++ names.map (allEntry cat ty gr))
        ++ old.exercises.drop (i + 1))[i + k]? = _
    rw [List.getElem?_append_left (by rw [hleft]; omega)]
    rw [List.getElem?_append_right (by rw [htake]; omega)]
    rw [htake, Nat.add_sub_cancel_left, List.getElem?_map]
  · intro k
    show ((old.exercises.take i ++ names.map (allEntry cat ty gr))
        ++ old.exercises.drop (i + 1))[i + names.length + k]? = _
    rw [List.getElem?_append_right (by rw [hleft]; omega)]
    rw [hleft, show i + names.length + k - (i + names.length) = k from by omega]
    rw [List.getElem?_drop]

/-- C4 witness: expanding the single entry of `demoState`'s first day to
the three Cardio/LISS names. -/
theorem replaceAll_splice_witness :
    ((replaceExerciseWithAll 0 0 "Cardio" "LISS" "-"
        ["Treadmill", "Stair Master", "Elliptical"] demoState).days[0]?).map Day.exercises
      = some (spliceAll 0 "Cardio" "LISS" "-"
          ["Treadmill", "Stair Master", "Elliptical"] demoDay.exercises) ∧
    (spliceAll 0 "Cardio" "LISS" "-"
        ["Treadmill", "Stair Master", "Elliptical"] demoDay.exercises).length + 1
      = demoDay.exercises.length + ["Treadmill", "Stair Master", "Elliptical"].length := by
  have h := replaceAll_splice demoState 0 0 "Cardio" "LISS" "-"
    ["Treadmill", "Stair Master", "Elliptical"] demoDay rfl (by decide)
  exact ⟨h.1, h.2.1⟩

/-- C9: `updateExercise`, `removeExercise` and `replaceExerciseWithAll`
each leave the targets record, every day at another index, and the
non-exercise fields of the active day unchanged. -/
theorem exerciseOps_frame (s : AppState) (aIdx exIdx : ℕ) (p : ExercisePatch)
    (cat ty gr : String) (names : List String) :
    framePreserved s (updateExercise aIdx exIdx p s) aIdx ∧
    framePreserved s (removeExercise aIdx exIdx s) aIdx ∧
    framePreserved s (replaceExerciseWithAll aIdx exIdx cat ty gr names s) aIdx :=
  ⟨frame_listModify s aIdx _ (fun _ => rfl),
   frame_listModify s aIdx _ (fun _ => rfl),
   frame_listModify s aIdx _ (fun _ => rfl)⟩

/-! ## C5: the days list is never empty -/

/-- C5: every state operation — new day, delete day, field edits, adding
an exercise, and the three exercise edits — preserves a non-empty `days`
list (delete unconditionally so), and deleting the only remaining day
yields exactly one fresh empty record dated today. -/
theorem days_never_empty :
    (∀ today s, (addNewDay today s).days ≠ []) ∧
    (∀ today idx s, (deleteDay today idx s).days ≠ []) ∧
    (∀ aIdx p s, s.days ≠ [] → (setActiveDay aIdx p s).days ≠ []) ∧
    (∀ today aIdx s, s.days ≠ [] → (addExercise today aIdx s).days ≠ []) ∧
    (∀ aIdx exIdx p s, s.days ≠ [] → (updateExercise aIdx exIdx p s).days ≠ []) ∧
    (∀ aIdx exIdx s, s.days ≠ [] → (removeExercise aIdx exIdx s).days ≠ []) ∧
    (∀ aIdx exIdx cat ty gr names s, s.days ≠ [] →
      (replaceExerciseWithAll aIdx exIdx cat ty gr names s).days ≠ []) ∧
    (∀ today tg d,
      (deleteDay today 0 { targets := tg, days := [d] }).days
        = [emptyDay today today]) := by
  refine ⟨fun today s => List.cons_ne_nil _ _, fun today idx s => ?_,
    fun aIdx p s h => listModify_ne_nil _ _ h,
    fun today aIdx s h => listModify_ne_nil _ _ h,
    fun aIdx exIdx p s h => listModify_ne_nil _ _ h,
    fun aIdx exIdx s h => listModify_ne_nil _ _ h,
    fun aIdx exIdx cat ty gr names s h => listModify_ne_nil _ _ h,
    fun today tg d => ?_⟩
  · show (if (s.days.eraseIdx idx).isEmpty then [emptyDay today today]
        else s.days.eraseIdx idx) ≠ []
    split
    · exact List.cons_ne_nil _ _
    · next hne => exact fun hc => by simp [hc] at hne
  · show (if (([d] : List Day).eraseIdx 0).isEmpty then [emptyDay today today]
        else ([d] : List Day).eraseIdx 0) = [emptyDay today today]
    rfl

/-- C5 witness: a field edit on the default state keeps the days list
non-empty. -/
theorem days_never_empty_witness :
    (setActiveDay 0 {} (defaultState "2026-10-12")).days ≠ [] :=
  days_never_empty.2.2.1 0 {} (defaultState "2026-10-12")
    (List.cons_ne_nil _ _)

/-! ## C6: JSON import -/

/-- C6 counterexample: a file whose content parses to an object with no
`days` member leaves the state unchanged but shows **no** error alert
(the alert fires only in the `catch` branch), contradicting the claim
that an error is surfaced whenever the file lacks a `days` sequence. -/
theorem importJSON_missingDays_cex :
    importJSON (Except.ok { targets := none, days := none })
        (defaultState "2026-10-12")
      = (defaultState "2026-10-12", false) := rfl

/-- C6 (amended): import of content parsing to an object with a non-empty
`days` sequence replaces the whole state — targets merged field-by-field
over the hard-coded defaults, days taken as-is; on a parse failure the
previous state is retained and the error alert is shown; on parsed
content lacking a non-empty `days` sequence the previous state is
retained but no error is surfaced. -/
theorem importJSON_spec :
    (∀ msg prev, importJSON (Except.error msg) prev = (prev, true)) ∧
    (∀ doc prev, doc.days = none ∨ doc.days = some ([] : List Day) →
      importJSON (Except.ok doc) prev = (prev, false)) ∧
    (∀ doc prev ds, doc.days = some ds → ds ≠ [] →
      importJSON (Except.ok doc) prev
        = ({ targets := mergeTargets doc.targets, days := ds }, false)) := by
  refine ⟨fun msg prev => rfl, fun doc prev h => ?_, fun doc prev ds hds hne => ?_⟩
  · rcases h with h | h <;> simp [importJSON, h]
  · simp [importJSON, hds, hne]

/-- C6 witness: importing a parsed document with one day replaces the
state with merged default targets and that day, with no alert. -/
theorem importJSON_spec_witness :
    importJSON (Except.ok { targets := none, days := some [demoDay] })
        (defaultState "2026-10-12")
      = ({ targets := mergeTargets none, days := [demoDay] }, false) :=
  importJSON_spec.2.2 { targets := none, days := some [demoDay] }
    (defaultState "2026-10-12") [demoDay] rfl (List.cons_ne_nil _ _)

/-! ## C7: catalog lookups are total and order-preserving -/

/-- C7: `getTypes`, `getGroups` and `getExercises` are total over all
string inputs: an empty (unselected) component or a key absent from the
tree yields `[]`, and present keys yield the tree's key sequences and
name lists in insertion order — witnessed also on concrete keys. -/
theorem catalog_total :
    (∀ cat, cat = "" ∨ EXERCISE_TREE.lookup cat = none → getTypes cat = []) ∧
    (∀ cat m, EXERCISE_TREE.lookup cat = some m → cat ≠ "" →
      getTypes cat = m.map Prod.fst) ∧
    (∀ cat ty, cat = "" ∨ ty = "" ∨
        (EXERCISE_TREE.lookup cat).bind (fun m => m.lookup ty) = none →
      getGroups cat ty = []) ∧
    (∀ cat ty g, (EXERCISE_TREE.lookup cat).bind (fun m => m.lookup ty) = some g →
      cat ≠ "" → ty ≠ "" → getGroups cat ty = g.map Prod.fst) ∧
    (∀ cat ty gr, cat = "" ∨ ty = "" ∨ gr = "" ∨
        ((EXERCISE_TREE.lookup cat).bind (fun m => m.lookup ty)).bind
          (fun g => g.lookup gr) = none →
      getExercises cat ty gr = []) ∧
    (∀ cat ty gr names,
      ((EXERCISE_TREE.lookup cat).bind (fun m => m.lookup ty)).bind
          (fun g => g.lookup gr) = some names →
      cat ≠ "" → ty ≠ "" → gr ≠ "" → getExercises cat ty gr = names) ∧
    (getTypes "Cardio" = ["LISS", "HIIT"] ∧
      getTypes "Strength" = ["Pull", "Push", "Legs"] ∧
      getGroups "Strength" "Pull" = ["Back", "Bicep"] ∧
      getExercises "Cardio" "LISS" "-" = ["Treadmill", "Stair Master", "Elliptical"] ∧
      getTypes "Yoga" = [] ∧ getGroups "Cardio" "" = [] ∧
      getExercises "Strength" "Pull" "Chest" = []) := by
  refine ⟨fun cat h => ?_, fun cat m hm hc => ?_, fun cat ty h => ?_,
    fun cat ty g hg hc ht => ?_, fun cat ty gr h => ?_,
    fun cat ty gr names hn hc ht hg => ?_, by decide⟩
  · rcases h with h | h <;> simp [getTypes, h]
  · simp [getTypes, hm, hc]
  · rcases h with h | h | h
    · simp [getGroups, h]
    · simp [getGroups, h]
    · rcases hb : EXERCISE_TREE.lookup cat with _ | m
      · simp [getGroups, hb]
      · rw [hb] at h
        simp only [Option.some_bind] at h
        simp [getGroups, hb, h]
  · rcases Option.bind_eq_some.mp hg with ⟨m, hm, hty⟩
    simp [getGroups, hm, hty, hc, ht]
  · rcases h with h | h | h | h
    · simp [getExercises, h]
    · simp [getExercises, h]
    · simp [getExercises, h]
    · rcases hb : (EXERCISE_TREE.lookup cat).bind (fun m => m.lookup ty) with _ | g
      · rcases hcat : EXERCISE_TREE.lookup cat with _ | m
        · simp [getExercises, hcat]
        · rw [hcat] at hb
          simp only [Option.some_bind] at hb
          simp [getExercises, hcat, hb]
      · rw [hb] at h
        simp only [Option.some_bind] at h
        rcases Option.bind_eq_some.mp hb with ⟨m, hm, hty⟩
        simp [getExercises, hm, hty, h]
  · rcases Option.bind_eq_some.mp hn with ⟨g, hgb, hgr⟩
    rcases Option.bind_eq_some.mp hgb with ⟨m, hm, hty⟩
    simp [getExercises, hm, hty, hgr, hc, ht, hg]

/-- C7 witness: the present-key case applied to Cardio, LISS, dash. -/
theorem catalog_total_witness :
    getExercises "Cardio" "LISS" "-" = ["Treadmill", "Stair Master", "Elliptical"] :=
  catalog_total.2.2.2.2.2.1 "Cardio" "LISS" "-"
    ["Treadmill", "Stair Master", "Elliptical"] (by decide)
    (by decide) (by decide) (by decide)

/-! ## C8: calories from macros and the day delta -/

/-- C8: `caloriesFromMacros` is `p*4 + c*4 + f*9`; a day's `calDelta` is
the signed difference between the entered calorie figure and that value,
and the UI match flag holds exactly when the two agree. -/
theorem caloriesFromMacros_spec :
    (∀ p c f, caloriesFromMacros p c f = p * 4 + c * 4 + f * 9) ∧
    (∀ d, calDelta d
        = numOr0 d.calories
          - (numOr0 d.protein * 4 + numOr0 d.carbs * 4 + numOr0 d.fat * 9)) ∧
    (∀ d, calMatch d = true ↔
      numOr0 d.calories
        = caloriesFromMacros (numOr0 d.protein) (numOr0 d.carbs) (numOr0 d.fat)) := by
  refine ⟨fun p c f => rfl, fun d => rfl, fun d => ?_⟩
  rw [calMatch, beq_iff_eq, calDelta, sub_eq_zero]

/-! ## C10: CSV export writes 0 for empty numeric fields -/

/-- C10: in the CSV export (parameterised by the external JS
number-to-string conversion `numStr`, which renders 0 as "0"), a day's
empty calories/protein/carbs/fat cells are written as "0"; a packed
exercise entry writes its empty weight/sets/reps/duration as 0 while its
category/type/group/name strings pass through unchanged — empty strings
staying empty, as in the all-blank entry which packs to "////0/0/0/0" —
and `exportCSV` emits exactly these cells, quoted, under the fixed
header. -/
theorem exportCSV_defaults (numStr : ℚ → String) (h0 : numStr 0 = "0") :
    (∀ date exs,
      dayFields numStr
          { date := date, calories := none, protein := none, carbs := none
          , fat := none, exercises := exs }
        = [date, "0", "0", "0", "0",
            String.intercalate " | " (exs.map (packExercise numStr))]) ∧
    (∀ cat ty gr n,
      packExercise numStr
          { category := cat, type := ty, group := gr, name := n
          , weight := none, sets := none, reps := none, duration := none }
        = cat ++ "/" ++ ty ++ "/" ++ gr ++ "/" ++ n ++ "/0/0/0/0") ∧
    packExercise numStr blankExercise = "////0/0/0/0" ∧
    (∀ s, exportCSV numStr s
        = String.intercalate "," csvHeaders ++ "\n" ++
          String.intercalate "\n"
            (s.days.map (fun d =>
              String.intercalate "," ((dayFields numStr d).map csvQuote)))) := by
  have hpack : ∀ cat ty gr n,
      packExercise numStr
          { category := cat, type := ty, group := gr, name := n
          , weight := none, sets := none, reps := none, duration := none }
        = cat ++ "/" ++ ty ++ "/" ++ gr ++ "/" ++ n ++ "/0/0/0/0" := by
    intro cat ty gr n
    show cat ++ "/" ++ ty ++ "/" ++ gr ++ "/" ++ n ++ "/" ++
        numStr (numOr0 none) ++ "/" ++ numStr (numOr0 none) ++ "/" ++
        numStr (numOr0 none) ++ "/" ++ numStr (numOr0 none) = _
    rw [show numOr0 none = 0 from rfl, h0]
    exact string_slash_zeros (cat ++ "/" ++ ty ++ "/" ++ gr ++ "/" ++ n)
  refine ⟨fun date exs => ?_, hpack, ?_, fun s => rfl⟩
  · show [date, numStr (numOr0 none), numStr (numOr0 none), numStr (numOr0 none),
        numStr (numOr0 none), String.intercalate " | " (exs.map (packExercise numStr))] = _
    rw [show numOr0 none = 0 from rfl, h0]
  · have h := hpack "" "" "" ""
    rw [show ("" : String) ++ "/" ++ "" ++ "/" ++ "" ++ "/" ++ "" ++ "/0/0/0/0"
        = "////0/0/0/0" from rfl] at h
    exact h

/-- C10 witness: the all-blank exercise entry packs to "////0/0/0/0"
under a concrete rendering of 0. -/
theorem exportCSV_defaults_witness :
    packExercise (fun _ => "0") blankExercise = "////0/0/0/0" :=
  (exportCSV_defaults (fun _ => "0") rfl).2.2.1


end Fitness
